import Mathlib

/-!
Verification of the market-analysis pipeline in `agents.py`
(E-commerce-Market-Analyzer).

The development shallowly embeds the pipeline core of `src/agents.py`:

* Python/JSON values are modelled by the inductive type `J`; Python dicts
  (insertion-ordered, first-match lookup, in-place key assignment) by
  `PyDict` with `getKey`/`setKey`.
* Python `float` arithmetic is modelled over `Rat`; `round` (banker's
  rounding, ties to even) by `pyRound`/`pyRound1`.  All numeric values
  appearing in this module are exact in one decimal, where the two
  semantics agree.
* The external oracles (Tavily search, the Gemini LLM chains, the plotly
  renderer) are modelled at their call interface: each call either raises
  (`.err`) or returns a value, chosen by an `Oracles` record that the
  embedded functions receive as an explicit parameter.  `none` for
  `tavily`/`llm` models the module-level globals being `None` after a
  failed initialisation.
* The persisted results file is modelled as an `Option PyDict` threaded
  through `save_results_tool` / `load_results_tool` / `agent_orchestrator`
  (whole-file overwrite semantics; `json.dump`/`json.load` round-trip is
  the identity on the stored object).
* The LangGraph driver (`workflow.invoke`) is modelled by the fuel-bounded
  `runNodes`; the fuel is LangGraph's default `recursion_limit` of 25,
  which the source does not override, and running out of fuel models
  `GraphRecursionError` (caught by the orchestrator's outer `except`).
-/

/-- Model of a Python/JSON value as produced and consumed by `agents.py`:
strings, ints, floats (as `Rat`), booleans, `None`, lists and dicts. -/
inductive J where
  | s (v : String)
  | i (v : Int)
  | q (v : Rat)
  | b (v : Bool)
  | null
  | arr (elems : List J)
  | obj (kvs : List (String × J))

/-- A Python dict with string keys, in insertion order. -/
abbrev PyDict := List (String × J)

/-- Python dict lookup (`d[k]` / `d.get(k)`): first matching key. -/
def getKey : PyDict → String → Option J
  | [], _ => none
  | (k', v) :: rest, k => if k' = k then some v else getKey rest k

/-- Python key-membership test (`k in d`). -/
def hasKey (d : PyDict) (k : String) : Bool :=
  (getKey d k).isSome

/-- Python dict assignment `d[k] = v`: overwrite in place when the key is
present, append at the end otherwise. -/
def setKey : PyDict → String → J → PyDict
  | [], k, v => [(k, v)]
  | (k', v') :: rest, k, v =>
    if k' = k then (k, v) :: rest else (k', v') :: setKey rest k v

/-- `len(x)` for a Python value: defined for dicts, lists and strings,
a `TypeError` (`none`) otherwise. -/
def jLen : J → Option Nat
  | .obj kvs => some kvs.length
  | .arr elems => some elems.length
  | .s v => some v.length
  | _ => none

/-- The keys of a record (dict); `[]` for non-dict values. -/
def fieldNamesOf : J → List String
  | .obj kvs => kvs.map Prod.fst
  | _ => []

/-- Python's `str.lower()` (per-character lowercasing; the strings this
module lowers are ASCII). -/
def pyLower (s : String) : String := String.mk (s.toList.map Char.toLower)

/-- Substring test, modelling Python's `sub in s`. -/
def containsSub (s sub : String) : Bool :=
  subOccurs sub.toList s.toList
where
  startsWithL : List Char → List Char → Bool
    | [], _ => true
    | _ :: _, [] => false
    | m :: ms, c :: cs => m = c && startsWithL ms cs
  subOccurs : List Char → List Char → Bool
    | sub, [] => sub.isEmpty
    | sub, l@(_ :: rest) => startsWithL sub l || subOccurs sub rest

/-- Python `round(x)` on an exact value: round half to even, as an `Int`. -/
def pyRound (x : Rat) : Int :=
  let f := x.floor
  let frac := x - (f : Rat)
  if frac < 1/2 then f
  else if 1/2 < frac then f + 1
  else if f % 2 = 0 then f else f + 1

/-- Python `round(x, 1)` on an exact value. -/
def pyRound1 (x : Rat) : Rat :=
  (pyRound (x * 10) : Rat) / 10

/-- Decimal rendering of a one-decimal nonnegative float, as Python's
`str` renders the values produced by `round(x, 1)` in this module
(always one digit after the point, e.g. `"1.0"`, `"2.5"`). -/
def tenthsStr (x : Rat) : String :=
  let n := (pyRound (x * 10)).toNat
  toString (n / 10) ++ "." ++ toString (n % 10)

/-- Per-category product/brand tables of `generate_enhanced_fallback_data`
(`category_products` in the source), including the synthesized default for
unrecognized categories (the source's `f"{category} Best Seller #{i+1}"` /
`f"{category} Brand {chr(65+i)}"` comprehensions, expanded). -/
def categoryData (category : String) : List String × List String :=
  let cl := pyLower category
  if cl = "smart home devices" then
    (["Amazon Echo Dot (4th Gen)", "Ring Video Doorbell Pro 2",
      "Philips Hue White A19 Starter Kit", "Google Nest Hub (2nd Gen)",
      "TP-Link Kasa Smart Plug HS103"],
     ["Amazon", "Ring (Amazon)", "Philips", "Google", "TP-Link"])
  else if cl = "electronics" then
    (["Apple AirPods Pro (2nd Generation)", "Samsung Galaxy Buds2 Pro",
      "Sony WH-1000XM5 Wireless Headphones", "Apple iPad (10th Generation)",
      "Anker PowerCore 10000 Power Bank"],
     ["Apple", "Samsung", "Sony", "Apple", "Anker"])
  else if cl = "fitness equipment" then
    (["Bowflex SelectTech 552 Adjustable Dumbbells",
      "Resistance Bands Set (11 Piece)", "Manduka PRO Yoga Mat",
      "TriggerPoint GRID Foam Roller", "REP FITNESS AB-3000 Bench"],
     ["Bowflex", "Bodylastics", "Manduka", "TriggerPoint", "REP FITNESS"])
  else if cl = "kitchen appliances" then
    (["Ninja AF101 Air Fryer", "Keurig K-Mini Coffee Maker",
      "Instant Pot Duo 7-in-1 Electric Pressure Cooker",
      "Vitamix E310 Explorian Blender", "Breville BOV845BSS Smart Oven Pro"],
     ["Ninja", "Keurig", "Instant Pot", "Vitamix", "Breville"])
  else if cl = "wireless headphones" then
    (["Apple AirPods (3rd Generation)",
      "Sony WF-1000XM4 True Wireless Earbuds", "Bose QuietComfort Earbuds",
      "Jabra Elite 85t True Wireless Earbuds",
      "Sennheiser Momentum 4 Wireless Headphones"],
     ["Apple", "Sony", "Bose", "Jabra", "Sennheiser"])
  else if cl = "skincare products" then
    (["CeraVe Daily Moisturizing Lotion",
      "Neutrogena Ultra Gentle Daily Cleanser",
      "The Ordinary Niacinamide 10% + Zinc 1%",
      "EltaMD UV Clear Broad-Spectrum SPF 46",
      "Freeman Charcoal & Black Sugar Face Mask"],
     ["CeraVe", "Neutrogena", "The Ordinary", "EltaMD", "Freeman"])
  else
    ([category ++ " Best Seller #1", category ++ " Best Seller #2",
      category ++ " Best Seller #3", category ++ " Best Seller #4",
      category ++ " Best Seller #5"],
     [category ++ " Brand A", category ++ " Brand B", category ++ " Brand C",
      category ++ " Brand D", category ++ " Brand E"])

/-- Per-platform multipliers of `generate_enhanced_fallback_data`
(`platform_multipliers.get(platform, platform_multipliers["Amazon"])`). -/
structure PlatMult where
  base_volume : Rat
  base_revenue : Rat
  competition_factor : Rat
  commission : Rat

/-- Lookup into `platform_multipliers`, defaulting to the `"Amazon"` row. -/
def platformMult (platform : String) : PlatMult :=
  if platform = "Amazon" then ⟨150, 3.2, 1.0, 0.15⟩
  else if platform = "eBay" then ⟨80, 1.8, 0.7, 0.12⟩
  else if platform = "Walmart" then ⟨120, 2.5, 0.8, 0.08⟩
  else ⟨150, 3.2, 1.0, 0.15⟩

/-- Per-country factors of `generate_enhanced_fallback_data`
(`country_factors.get(country, country_factors["US"])`). -/
structure CountryFactor where
  market_factor : Rat
  currency : String
  tax_rate : Rat

/-- Lookup into `country_factors`, defaulting to the `"US"` row. -/
def countryFactor (country : String) : CountryFactor :=
  if country = "US" then ⟨1.0, "$", 0.08⟩
  else if country = "UK" then ⟨0.6, "£", 0.20⟩
  else if country = "DE" then ⟨0.8, "€", 0.19⟩
  else if country = "JP" then ⟨0.7, "¥", 0.10⟩
  else ⟨1.0, "$", 0.08⟩

/-- Per-time-window factors of `generate_enhanced_fallback_data`
(`time_factors.get(time_range, time_factors["Last Month"])`). -/
structure TimeFactor where
  growth_boost : Rat
  volatility : Rat
  trend_strength : String

/-- Lookup into `time_factors`, defaulting to the `"Last Month"` row. -/
def timeFactor (time_range : String) : TimeFactor :=
  if time_range = "Last Week" then ⟨0.3, 0.2, "High"⟩
  else if time_range = "Last Month" then ⟨1.0, 0.1, "Stable"⟩
  else if time_range = "Last 3 Months" then ⟨1.5, 0.05, "Strong"⟩
  else if time_range = "Last 6 Months" then ⟨2.0, 0.03, "Very Strong"⟩
  else ⟨1.0, 0.1, "Stable"⟩

/-- The Fallback Data Generator `generate_enhanced_fallback_data` of
`agents.py`: a pure function of
`(analysis_type, category, platform, country, time_range)` producing the
deterministic placeholder records, branch for branch as in the source. -/
def generate_enhanced_fallback_data
    (analysis_type category platform country time_range : String) :
    List J :=
  let cd := categoryData category
  let products := cd.1
  let brands := cd.2
  let pm := platformMult platform
  let cf := countryFactor country
  let tf := timeFactor time_range
  let tl := pyLower analysis_type
  if tl = "market gap" then
    [.obj [("product", .s (products.getD 0 "")),
           ("demand_score", .q (pyRound1 (8.5 * cf.market_factor))),
           ("competition", .s (if platform = "Amazon" then "Medium" else "Low")),
           ("opportunity", .s "High"),
           ("market_size", .s (cf.currency ++ tenthsStr (pyRound1 (2.5 * cf.market_factor)) ++ "M"))],
     .obj [("product", .s (products.getD 1 "")),
           ("demand_score", .q (pyRound1 (7.8 * cf.market_factor))),
           ("competition", .s "Low"),
           ("opportunity", .s "High"),
           ("market_size", .s (cf.currency ++ tenthsStr (pyRound1 (1.8 * cf.market_factor)) ++ "M"))],
     .obj [("product", .s (products.getD 2 "")),
           ("demand_score", .q (pyRound1 (7.2 * cf.market_factor))),
           ("competition", .s "Medium"),
           ("opportunity", .s "Medium"),
           ("market_size", .s (cf.currency ++ tenthsStr (pyRound1 (1.2 * cf.market_factor)) ++ "M"))],
     .obj [("product", .s (products.getD 3 "")),
           ("demand_score", .q (pyRound1 (6.5 * cf.market_factor))),
           ("competition", .s "High"),
           ("opportunity", .s "Low"),
           ("market_size", .s (cf.currency ++ tenthsStr (pyRound1 (0.8 * cf.market_factor)) ++ "M"))],
     .obj [("product", .s (products.getD 4 "")),
           ("demand_score", .q (pyRound1 (8.0 * cf.market_factor))),
           ("competition", .s "Low"),
           ("opportunity", .s "High"),
           ("market_size", .s (cf.currency ++ tenthsStr (pyRound1 (1.5 * cf.market_factor)) ++ "M"))]]
  else if tl = "trending products" then
    let base_trend := 95 * tf.growth_boost
    [.obj [("product", .s (products.getD 0 "")),
           ("trend_score", .i (min 100 (pyRound base_trend))),
           ("growth", .s ("+" ++ toString (pyRound (250 * tf.growth_boost)) ++ "%")),
           ("interest_level", .s "Very High"),
           ("search_volume", .s (toString (pyRound (pm.base_volume * cf.market_factor)) ++ "K/month"))],
     .obj [("product", .s (products.getD 1 "")),
           ("trend_score", .i (min 100 (pyRound (base_trend * 0.93)))),
           ("growth", .s ("+" ++ toString (pyRound (180 * tf.growth_boost)) ++ "%")),
           ("interest_level", .s "High"),
           ("search_volume", .s (toString (pyRound (120 * cf.market_factor)) ++ "K/month"))],
     .obj [("product", .s (products.getD 2 "")),
           ("trend_score", .i (min 100 (pyRound (base_trend * 0.86)))),
           ("growth", .s ("+" ++ toString (pyRound (160 * tf.growth_boost)) ++ "%")),
           ("interest_level", .s "High"),
           ("search_volume", .s (toString (pyRound (100 * cf.market_factor)) ++ "K/month"))],
     .obj [("product", .s (products.getD 3 "")),
           ("trend_score", .i (min 100 (pyRound (base_trend * 0.79)))),
           ("growth", .s ("+" ++ toString (pyRound (120 * tf.growth_boost)) ++ "%")),
           ("interest_level", .s "Medium"),
           ("search_volume", .s (toString (pyRound (80 * cf.market_factor)) ++ "K/month"))],
     .obj [("product", .s (products.getD 4 "")),
           ("trend_score", .i (min 100 (pyRound (base_trend * 0.74)))),
           ("growth", .s ("+" ++ toString (pyRound (100 * tf.growth_boost)) ++ "%")),
           ("interest_level", .s "Medium"),
           ("search_volume", .s (toString (pyRound (65 * cf.market_factor)) ++ "K/month"))]]
  else if tl = "high selling products" then
    let base_revenue := pm.base_revenue * cf.market_factor
    [.obj [("product", .s (products.getD 0 "")),
           ("sales_rank", .i 1),
           ("revenue", .s (cf.currency ++ tenthsStr (pyRound1 base_revenue) ++ "M")),
           ("rating", .q 4.8),
           ("reviews", .s "25,500")],
     .obj [("product", .s (products.getD 1 "")),
           ("sales_rank", .i 2),
           ("revenue", .s (cf.currency ++ tenthsStr (pyRound1 (base_revenue * 0.88)) ++ "M")),
           ("rating", .q 4.6),
           ("reviews", .s "18,200")],
     .obj [("product", .s (products.getD 2 "")),
           ("sales_rank", .i 3),
           ("revenue", .s (cf.currency ++ tenthsStr (pyRound1 (base_revenue * 0.66)) ++ "M")),
           ("rating", .q 4.5),
           ("reviews", .s "15,800")],
     .obj [("product", .s (products.getD 3 "")),
           ("sales_rank", .i 4),
           ("revenue", .s (cf.currency ++ tenthsStr (pyRound1 (base_revenue * 0.59)) ++ "M")),
           ("rating", .q 4.7),
           ("reviews", .s "12,300")],
     .obj [("product", .s (products.getD 4 "")),
           ("sales_rank", .i 5),
           ("revenue", .s (cf.currency ++ tenthsStr (pyRound1 (base_revenue * 0.47)) ++ "M")),
           ("rating", .q 4.4),
           ("reviews", .s "9,800")]]
  else if tl = "competitor analysis" then
    [.obj [("competitor", .s (brands.getD 0 "")),
           ("market_share", .s (toString (pyRound (35 * pm.competition_factor)) ++ "%")),
           ("strength", .s "Brand Recognition"),
           ("weakness", .s "High Pricing"),
           ("rating", .s "4.5/5")],
     .obj [("competitor", .s (brands.getD 1 "")),
           ("market_share", .s (toString (pyRound (28 * pm.competition_factor)) ++ "%")),
           ("strength", .s "Technology"),
           ("weakness", .s "Limited Distribution"),
           ("rating", .s "4.3/5")],
     .obj [("competitor", .s (brands.getD 2 "")),
           ("market_share", .s (toString (pyRound (18 * pm.competition_factor)) ++ "%")),
           ("strength", .s "Affordability"),
           ("weakness", .s "Quality Issues"),
           ("rating", .s "3.8/5")],
     .obj [("competitor", .s (brands.getD 3 "")),
           ("market_share", .s (toString (pyRound (12 * pm.competition_factor)) ++ "%")),
           ("strength", .s "Quality"),
           ("weakness", .s "Niche Market"),
           ("rating", .s "4.7/5")],
     .obj [("competitor", .s (brands.getD 4 "")),
           ("market_share", .s (toString (pyRound (7 * pm.competition_factor)) ++ "%")),
           ("strength", .s "International Reach"),
           ("weakness", .s "Local Support"),
           ("rating", .s "4.1/5")]]
  else
    [.obj [("item", .s (category ++ " Analysis")),
           ("value", .s "Available"),
           ("status", .s "Complete")]]

/-- Template recommendations of `generate_enterprise_recommendations`,
keyed by `analysis_type.lower()`, with the source's default template for
any other kind. -/
def generate_enterprise_recommendations (analysis_type category : String) : String :=
  let tl := pyLower analysis_type
  if tl = "market gap" then
    "🎯 **SELLER ACTION PLAN: Market Gap Opportunities**\n\n**1. HIGH-PROFIT ENTRY STRATEGY** → Target premium " ++ category ++ " segment with 78% demand but only 23% seller competition\n\n**2. PRICING ADVANTAGE** → Price 15-20% below market leaders while maintaining quality - customers will switch for value\n\n**3. LAUNCH TIMING** → Enter market within 30-45 days before competition increases - first-mover advantage worth 40% higher profits\n\n**4. INVENTORY PLANNING** → Start with 500-1000 units based on $2.5M revenue potential - avoid overstock, scale gradually\n\n**5. MARKETING FOCUS** → Target underserved customer segments with specific pain points competitors ignore\n\n**6. COMPETITIVE MOAT** → Add unique features (eco-friendly, smart connectivity, premium packaging) for differentiation"
  else if tl = "trending products" then
    "🚀 **SELLER SUCCESS PLAN: Trend Capitalization**\n\n**1. RIDE THE WAVE** → Launch " ++ category ++ " products NOW - 95% growth trend means 3-6 months of high profits ahead\n\n**2. INVENTORY ACCELERATION** → Order 2-3x normal inventory for trending items - stockouts kill momentum during trends\n\n**3. PRICE OPTIMIZATION** → Start 10% higher than normal during peak trend - customers pay premium for hot products\n\n**4. MARKETING AMPLIFICATION** → Increase ad spend by 200% on trending products - ROI is 3-5x higher during trend peaks\n\n**5. CUSTOMER CAPTURE** → Build email lists from trending product buyers - convert to long-term customers for other products\n\n**6. TREND MONITORING** → Set up Google Trends alerts for " ++ category ++ " - spot next trends 30-60 days early"
  else if tl = "high selling products" then
    "💰 **PROFIT MAXIMIZATION: Best Seller Strategy**\n\n**1. COPY SUCCESS PATTERNS** → Analyze top " ++ category ++ " sellers - replicate their pricing, features, and positioning\n\n**2. QUALITY THRESHOLD** → Maintain 4.5+ star rating minimum - below this, sales drop 60% regardless of price\n\n**3. REVIEW VELOCITY** → Get first 50 reviews within 30 days using follow-up sequences - reviews drive 80% of buying decisions\n\n**4. PRICING SWEET SPOT** → Position between #2 and #3 best sellers\x27 prices - capture price-conscious buyers from leader\n\n**5. BUNDLE OPPORTUNITIES** → Create product bundles with complementary items - increase average order value by 35-50%\n\n**6. SEASONAL SCALING** → Increase inventory 3x during Q4 holiday season - high sellers see 400% sales spikes"
  else if tl = "competitor analysis" then
    "⚔️ **COMPETITIVE WARFARE: Beat Your Competition**\n\n**1. ATTACK WEAK POINTS** → Target competitors with 3.9 or lower ratings - steal their customers with better quality\n\n**2. PRICING STRATEGY** → Undercut market leader by 10-15% while matching #2 player\x27s quality - classic disruption tactic\n\n**3. FEATURE DIFFERENTIATION** → Add 2-3 features competitors lack - customers pay 20-30% more for perceived superiority\n\n**4. CUSTOMER ACQUISITION** → Target competitors\x27 negative reviewers - they\x27re pre-qualified leads seeking alternatives\n\n**5. DISTRIBUTION EXPANSION** → Sell on platforms where competitors are weak - capture untapped markets\n\n**6. BRAND POSITIONING** → Position as \x27better alternative to [market leader]\x27 - leverage their brand awareness for your benefit"
  else
    "**SELLER OPTIMIZATION STRATEGIES for " ++ category ++ "**\n\n1. **Market Research** → Analyze successful competitors and replicate their winning formulas\n2. **Price Competitively** → Position pricing strategically against market leaders\n3. **Quality Focus** → Maintain high ratings and customer satisfaction scores\n4. **Inventory Management** → Balance stock levels with demand forecasting\n5. **Customer Acquisition** → Target underserved segments with specific value propositions"

/-- Outcome of one call to an external chain/oracle: an exception
(`err`), or a returned value. -/
inductive ChainResult (α : Type) where
  | err
  | ok (v : α)

/-- Outcome of one `tavily_search.run` attempt: an exception, or a result
whose Python truthiness is `truthy` and whose `json.dumps(results, indent=2)`
serialisation is `body` (the result object itself is opaque). -/
inductive SearchResult where
  | err
  | ok (truthy : Bool) (body : String)

/-- Behaviour of the LLM chains of `agents.py`, per retry attempt:
the extraction chain returns parsed JSON (any value) or raises; the
summary and recommendation chains return a string or raise. -/
structure LLMOracle where
  extractChain : Nat → ChainResult J
  summaryChain : Nat → ChainResult String
  recChain : Nat → ChainResult String

/-- Outcome of one chart-builder run for a given analysis kind: the
plotly `fig.to_json()` strings of the three charts the builder appends,
or an exception anywhere inside the builder (plotly failure or a parse
error on a malformed record), which the builder catches and turns into
`[]`. -/
inductive RenderResult where
  | err
  | ok (c1 c2 c3 : String)

/-- The external collaborators of `agents.py` as explicit parameters:
`tavily`/`llm` are `none` when module initialisation failed (the globals
are `None`); otherwise they give the outcome of each call.  `render`
gives the outcome of the chart builder for an analysis kind (keyed by
`analysis_type.lower()`). -/
structure Oracles where
  tavily : Option (Nat → SearchResult)
  llm : Option LLMOracle
  render : String → RenderResult

/-- Minimal model of `json.dumps` string escaping (backslash, quote,
newline, tab, carriage return; other characters unchanged). -/
def jsonEscape (s : String) : String :=
  s.toList.foldl (fun acc c => acc ++ escapeChar c) ""
where
  escapeChar (c : Char) : String :=
    if c = Char.ofNat 92 then "\\\\"
    else if c = Char.ofNat 34 then "\\\""
    else if c = Char.ofNat 10 then "\\n"
    else if c = Char.ofNat 9 then "\\t"
    else if c = Char.ofNat 13 then "\\r"
    else String.singleton c

/-- The structured empty result `search_market_data` returns when Tavily
is unavailable (`status: fallback_mode`). -/
def fallbackModeJson (query : String) : String :=
  "\x7b\"results\": [], \"query\": \"" ++ jsonEscape query ++
    "\", \"response_time\": 0.0, \"status\": \"fallback_mode\"\x7d"

/-- The structured empty result `search_market_data` returns after all
retry attempts are exhausted (`status: enterprise_fallback`). -/
def enterpriseFallbackJson (query : String) : String :=
  "\x7b\"results\": [], \"query\": \"" ++ jsonEscape query ++
    "\", \"response_time\": 0.0, \"status\": \"enterprise_fallback\"\x7d"

/-- The retry loop inside `search_market_data`: up to
`ENTERPRISE_CONFIG["max_retries"] = 10` attempts; an attempt returns the
dumped body if the result is truthy, otherwise (falsy result or
exception) the next attempt runs; exhaustion yields the
enterprise-fallback sentinel. -/
def tavilyAttempts (tav : Nat → SearchResult) (query : String) :
    List Nat → String
  | [] => enterpriseFallbackJson query
  | i :: rest =>
    match tav i with
    | .err => tavilyAttempts tav query rest
    | .ok truthy body => if truthy then body else tavilyAttempts tav query rest

/-- `search_market_data` of `agents.py`: Tavily unavailable gives the
fallback-mode sentinel, otherwise the bounded retry loop runs. -/
def search_market_data (o : Oracles) (query : String) : String :=
  match o.tavily with
  | none => fallbackModeJson query
  | some tav => tavilyAttempts tav query (List.range 10)

/-- Membership of `analysis_type.lower()` in the four kinds
`process_market_data` supports. -/
def isSupportedKind (t : String) : Bool :=
  let tl := pyLower t
  tl = "market gap" || tl = "trending products" ||
    tl = "high selling products" || tl = "competitor analysis"

/-- The retry loop inside `process_market_data`: an attempt succeeds
when the chain returns a non-empty JSON list (`isinstance(..., list)` and
`len > 0`); exceptions and other values move to the next attempt. -/
def extractAttempts (l : LLMOracle) : List Nat → Option (List J)
  | [] => none
  | i :: rest =>
    match l.extractChain i with
    | .err => extractAttempts l rest
    | .ok v =>
      match v with
      | .arr elems =>
        if elems.length > 0 then some elems else extractAttempts l rest
      | _ => extractAttempts l rest

/-- `process_market_data` of `agents.py`.  With no LLM the Fallback Data
Generator runs directly on the given `analysis_type`; with an LLM, an
unsupported `analysis_type` is replaced by `"market gap"` before fallback
generation, and a supported one goes through up to 3 extraction attempts
before falling back.  (`raw_data` reaches the LLM only through the
prompt, so its dependence lives in the oracle behaviour.) -/
def process_market_data (o : Oracles)
    (raw_data analysis_type category platform region time_period : String) :
    List J :=
  match o.llm with
  | none =>
    generate_enhanced_fallback_data analysis_type category platform region
      time_period
  | some l =>
    if isSupportedKind analysis_type then
      match extractAttempts l (List.range 3) with
      | some d => d
      | none =>
        generate_enhanced_fallback_data analysis_type category platform
          region time_period
    else
      generate_enhanced_fallback_data "market gap" category platform region
        time_period

/-- The retry loop inside `generate_analysis`: each attempt re-invokes
whichever of the two chains has not yet produced a non-empty string; an
exception skips the rest of the attempt.  (`None` and `""` are both
falsy in the source; both are modelled by `""`.) -/
def analysisAttempts (l : LLMOracle) :
    List Nat → String → String → String × String
  | [], sm, rc => (sm, rc)
  | i :: rest, sm, rc =>
    if sm ≠ "" ∧ rc ≠ "" then (sm, rc)
    else
      match (if sm = "" then l.summaryChain i else .ok sm) with
      | .err => analysisAttempts l rest sm rc
      | .ok sm' =>
        match (if rc = "" then l.recChain i else .ok rc) with
        | .err => analysisAttempts l rest sm' rc
        | .ok rc' => analysisAttempts l rest sm' rc'

/-- `generate_analysis` of `agents.py`: the summary/recommendations dict,
with the source's template substitutions when the LLM is unavailable or
an entry is still empty after 3 attempts.  (The extracted records reach
the LLM only through the prompt, so their dependence lives in the oracle
behaviour; the parameter is kept for the call shape.) -/
def generate_analysis (o : Oracles) (data : List J) (analysis_type : String) :
    List (String × String) :=
  match o.llm with
  | none =>
    [("summary", "Enterprise-level " ++ analysis_type ++
        " analysis completed with comprehensive market data processing."),
     ("recommendations", generate_enterprise_recommendations analysis_type "market")]
  | some l =>
    let p := analysisAttempts l (List.range 3) "" ""
    let sm := if p.1 = "" then
        "Enterprise-level " ++ analysis_type ++
          " analysis completed with advanced market intelligence processing."
      else p.1
    let rc := if p.2 = "" then
        generate_enterprise_recommendations analysis_type "market"
      else p.2
    [("summary", sm), ("recommendations", rc)]

/-- The `chart` entry of the LangGraph state: initialised to the string
`""` by the orchestrator and set to a list of chart-JSON strings by the
visualize node (the source is dynamically typed here). -/
inductive ChartVal where
  | str (c : String)
  | lst (cs : List String)

/-- Python truthiness of the `chart` entry. -/
def chartTruthy : ChartVal → Bool
  | .str c => !(c == "")
  | .lst cs => !cs.isEmpty

/-- The LangGraph `AgentState` of `agents.py` (the `messages` entry is
never read by any node and is omitted; `analysis` is the
summary/recommendations dict). -/
structure AgentState where
  next : String
  raw_data : String
  extracted_data : List J
  analysis : List (String × String)
  chart : ChartVal
  analysis_type : String
  category : String
  platform : String
  region : String
  time_period : String
  max_retries : Nat

/-- `dict.get(k, d)` on the analysis dict (`None` and a missing key both
behave as the falsy `""`). -/
def lookupStrD (d : List (String × String)) (k dflt : String) : String :=
  match d with
  | [] => dflt
  | (k', v) :: rest => if k' = k then v else lookupStrD rest k dflt

/-- `create_analysis_chart` of `agents.py`: empty data gives `[]`;
otherwise the builder for the analysis kind runs (its outcome given by
the render oracle), and an unknown kind gives `[]`.  Every exception is
caught and becomes `[]`. -/
def create_analysis_chart (o : Oracles) (data : List J)
    (analysis_type _category _platform _country _time_range : String) :
    List String :=
  if data.isEmpty then []
  else if isSupportedKind analysis_type then
    match o.render (pyLower analysis_type) with
    | .err => []
    | .ok c1 c2 c3 => [c1, c2, c3]
  else []

/-- `create_fallback_charts` of `agents.py`: regenerates data through the
Fallback Data Generator when empty, validates that the first record is a
dict with more than one field, retries chart construction, and returns
the single placeholder chart `['\x7b\x7d']` when anything is still
empty or invalid. -/
def create_fallback_charts (o : Oracles) (data : List J)
    (analysis_type category platform country time_range : String) :
    List String :=
  let data := if data.isEmpty then
      generate_enhanced_fallback_data analysis_type category platform
        country time_range
    else data
  match data with
  | [] => ["\x7b\x7d"]
  | d0 :: rest =>
    match d0 with
    | .obj kvs =>
      if kvs.length > 1 then
        let charts := create_analysis_chart o (d0 :: rest) analysis_type
          category platform country time_range
        if charts.isEmpty then ["\x7b\x7d"] else charts
      else ["\x7b\x7d"]
    | _ => ["\x7b\x7d"]

/-- The no-data sentinel `search_node` substitutes when every attempt
returns too small a body (the source's
`'\x7b"results": [], "status": "fallback"\x7d'` literal). -/
def searchFallbackSentinel : String :=
  "\x7b\"results\": [], \"status\": \"fallback\"\x7d"

/-- The retry loop inside `search_node`: up to 5 attempts; a response is
accepted when it is non-empty and longer than 100 characters, and
exhaustion yields the `status: fallback` sentinel.
(`search_market_data` never raises — it catches its own oracle errors —
so the node's `except` branch returning the `limited_data` sentinel is
dead code.) -/
def searchNodeAttempts (o : Oracles) (s : AgentState) (query : String) :
    List Nat → AgentState
  | [] =>
    { s with raw_data := searchFallbackSentinel,
             next := "extract" }
  | _ :: rest =>
    let raw := search_market_data o query
    if raw ≠ "" ∧ raw.length > 100 then
      { s with raw_data := raw, next := "extract" }
    else searchNodeAttempts o s query rest

/-- `search_node` of `agents.py`: builds the query string and runs the
bounded retry loop; always advances to Extract. -/
def search_node (o : Oracles) (s : AgentState) : AgentState :=
  let query := s.category ++ " " ++ s.analysis_type ++ " " ++ s.platform ++
    " market analysis trends 2024 " ++ s.region ++ " " ++ s.time_period
  searchNodeAttempts o s query (List.range 5)

/-- `extract_node` of `agents.py`: runs `process_market_data`, then
validates the result (non-empty list whose first element has more than
one field); validation failure, and likewise the node's `except` branch
(a `TypeError` from `len` on a non-sized first element), substitutes the
Fallback Data Generator's records.  Always advances to Analyze. -/
def extract_node (o : Oracles) (s : AgentState) : AgentState :=
  let data := process_market_data o s.raw_data s.analysis_type s.category
    s.platform s.region s.time_period
  let fb := generate_enhanced_fallback_data s.analysis_type s.category
    s.platform s.region s.time_period
  match data with
  | [] => { s with extracted_data := fb, next := "analyze" }
  | d0 :: rest =>
    match jLen d0 with
    | none => { s with extracted_data := fb, next := "analyze" }
    | some n =>
      if n ≤ 1 then { s with extracted_data := fb, next := "analyze" }
      else { s with extracted_data := d0 :: rest, next := "analyze" }

/-- Assignment `d[k] = v` on the analysis dict. -/
def setStr : List (String × String) → String → String → List (String × String)
  | [], k, v => [(k, v)]
  | (k', v') :: rest, k, v =>
    if k' = k then (k, v) :: rest else (k', v') :: setStr rest k v

/-- `analyze_node` of `agents.py`: runs `generate_analysis`, then fills
either entry that is still empty with the node-level defaults.  Always
advances to Visualize. -/
def analyze_node (o : Oracles) (s : AgentState) : AgentState :=
  let a := generate_analysis o s.extracted_data s.analysis_type
  let a := if lookupStrD a "summary" "" = "" then
      setStr a "summary" ("Enterprise-level " ++ s.analysis_type ++
        " analysis completed for " ++ s.category ++ " market.")
    else a
  let a := if lookupStrD a "recommendations" "" = "" then
      setStr a "recommendations"
        (generate_enterprise_recommendations s.analysis_type s.category)
    else a
  { s with analysis := a, next := "visualize" }

/-- `visualize_node` of `agents.py`: builds the charts for the extracted
records, falling back to `create_fallback_charts` when none were
produced.  Always returns to the supervisor. -/
def visualize_node (o : Oracles) (s : AgentState) : AgentState :=
  let charts := create_analysis_chart o s.extracted_data s.analysis_type
    s.category s.platform s.region s.time_period
  let charts := if charts.isEmpty then
      create_fallback_charts o s.extracted_data s.analysis_type s.category
        s.platform s.region s.time_period
    else charts
  { s with chart := .lst charts, next := "supervisor" }

/-- `supervisor_node` of `agents.py`: dispatches to the first stage whose
state entry is still falsy, `FINISH` when all four are populated. -/
def supervisor_node (s : AgentState) : AgentState :=
  if s.raw_data = "" then { s with next := "search" }
  else if s.extracted_data.isEmpty then { s with next := "extract" }
  else if s.analysis.isEmpty then { s with next := "analyze" }
  else if ¬chartTruthy s.chart then { s with next := "visualize" }
  else { s with next := "FINISH" }

/-- Dispatch of the LangGraph node labels to the stage functions (the
graph's `add_node` table). -/
def runStage (o : Oracles) (node : String) (s : AgentState) : AgentState :=
  if node = "search" then search_node o s
  else if node = "extract" then extract_node o s
  else if node = "analyze" then analyze_node o s
  else if node = "visualize" then visualize_node o s
  else s

/-- The LangGraph driver (`workflow.invoke`): entry point `supervisor`;
after a stage runs, its unconditional edge returns to the supervisor,
whose conditional edge follows `next` (ending at `FINISH`).  The fuel is
the number of node executions still allowed; `none` models
`GraphRecursionError` when the recursion limit is exceeded. -/
def runNodes (o : Oracles) : Nat → String → AgentState → Option AgentState
  | 0, _, _ => none
  | fuel + 1, node, s =>
    if node = "supervisor" then
      let s' := supervisor_node s
      if s'.next = "FINISH" then some s'
      else runNodes o fuel s'.next s'
    else runNodes o fuel "supervisor" (runStage o node s)

/-- LangGraph's default `recursion_limit`, which `workflow.invoke(state)`
runs under (the source passes no config). -/
def recursionLimit : Nat := 25

/-- `save_results_tool` of `agents.py`: sets `data["timestamp"]` to the
current time and `data["version"]` to `"1.0"`, in place, and writes the
resulting dict as the whole content of the results file.  The returned
dict is both the caller-visible mutated envelope and the new file
content (the source also returns a status message string). -/
def save_results_tool (data : PyDict) (timestamp : String) : PyDict :=
  setKey (setKey data "timestamp" (J.s timestamp)) "version" (J.s "1.0")

/-- The required-key list `load_results_tool` fills in. -/
def requiredKeys : List String := ["summary", "tables", "charts", "recommendations"]

/-- The missing-key default of `load_results_tool`
(`[] if key in ["tables", "charts"] else ""`). -/
def loadDefault (k : String) : J :=
  if k = "tables" ∨ k = "charts" then J.arr [] else J.s ""

/-- `load_results_tool` of `agents.py`: returns the persisted dict with
any missing required key filled in, or the no-results envelope when the
file does not exist. -/
def load_results_tool (file : Option PyDict) : PyDict :=
  match file with
  | some data =>
    requiredKeys.foldl
      (fun d k => if hasKey d k then d else setKey d k (loadDefault k)) data
  | none =>
    [("summary", J.s "No saved results found. Run an analysis first."),
     ("tables", J.arr []),
     ("charts", J.arr []),
     ("recommendations", J.s "Start by running a market analysis query.")]

/-- The apostrophe character (one of the two quote characters the
request-parsing regexes accept). -/
def sqChar : Char := Char.ofNat 39

/-- The double-quote character. -/
def dqChar : Char := Char.ofNat 34

/-- Membership in the regex character class matching a quote. -/
def isQuoteChar (c : Char) : Bool := c = sqChar || c = dqChar

/-- Lazy capture for `(.*?)['\"]`: the shortest run of characters up to a
closing quote; fails when a newline (which `.` does not match) or the end
of input comes first. -/
def lazyToQuote : List Char → Option (List Char)
  | [] => none
  | c :: rest =>
    if isQuoteChar c then some []
    else if c = Char.ofNat 10 then none
    else (lazyToQuote rest).map (c :: ·)

/-- Consume a literal marker from the front of the input. -/
def dropLit : List Char → List Char → Option (List Char)
  | [], l => some l
  | _ :: _, [] => none
  | m :: ms, c :: cs => if c = m then dropLit ms cs else none

/-- `re.search(marker + "['\"](.*?)['\"]", text)`: the capture of the
leftmost match (the engine tries every start position left to right). -/
def reQuotedL (marker : List Char) : List Char → Option (List Char)
  | [] => none
  | l@(_ :: rest) =>
    match
      (match dropLit marker l with
       | none => none
       | some after =>
         match after with
         | [] => none
         | q :: tail => if isQuoteChar q then lazyToQuote tail else none) with
    | some cap => some cap
    | none => reQuotedL marker rest

/-- String-level wrapper for `reQuotedL`. -/
def reQuoted (marker text : String) : Option String :=
  (reQuotedL marker.toList text.toList).map fun cs => String.mk cs

/-- Lazy capture for `([^']*?)['\"]\.`: the shortest run of
non-apostrophe characters up to a quote that is followed by a literal
dot; an apostrophe that cannot close the match kills this start
position (the class `[^']` cannot consume it). -/
def lazyToQuoteDot : List Char → Option (List Char)
  | [] => none
  | c :: rest =>
    if isQuoteChar c && (match rest with
        | d :: _ => d == Char.ofNat 46
        | [] => false) then some []
    else if c = sqChar then none
    else (lazyToQuoteDot rest).map (c :: ·)

/-- `re.search("for ['\"]([^']*?)['\"]\\.", text)`: the capture of the
leftmost match, used for the time-period parameter. -/
def reTimePeriodL : List Char → Option (List Char)
  | [] => none
  | l@(_ :: rest) =>
    match
      (match dropLit ("for ".toList) l with
       | none => none
       | some after =>
         match after with
         | [] => none
         | q :: tail => if isQuoteChar q then lazyToQuoteDot tail else none) with
    | some cap => some cap
    | none => reTimePeriodL rest

/-- String-level wrapper for `reTimePeriodL`. -/
def reTimePeriod (text : String) : Option String :=
  (reTimePeriodL text.toList).map fun cs => String.mk cs

/-- The initial `state` dict `agent_orchestrator` builds for a run. -/
def initState (analysis_type category platform region time_period : String) :
    AgentState :=
  { next := "search", raw_data := "", extracted_data := [], analysis := [],
    chart := .str "", analysis_type := analysis_type, category := category,
    platform := platform, region := region, time_period := time_period,
    max_retries := 0 }

/-- The pipeline branch of `agent_orchestrator` (everything after the
request has been parsed): the LangGraph workflow runs under the default
recursion limit, the final state is packaged into the result envelope
and saved; the `none` driver outcome is `GraphRecursionError`, handled
by the orchestrator's `except` branch, which builds and saves the full
fallback envelope. -/
def run_pipeline (o : Oracles) (timestamp analysis_type category platform
    region time_period : String) : PyDict × Option PyDict :=
  match runNodes o recursionLimit "supervisor"
      (initState analysis_type category platform region time_period) with
    | some final =>
      let charts : List String :=
        match final.chart with
        | .lst cs => cs
        | .str c => if c ≠ "" then [c] else []
      let result : PyDict :=
        [("summary", J.s (lookupStrD final.analysis "summary"
            "E-commerce seller analysis completed with real market data.")),
         ("tables", J.arr [J.arr final.extracted_data]),
         ("charts", J.arr (charts.map J.s)),
         ("recommendations", J.s (lookupStrD final.analysis "recommendations" "")),
         ("status", J.s "✅ Seller-focused analysis complete - Multiple professional charts with real product names generated")]
      let saved := save_results_tool result timestamp
      (saved, some saved)
    | none =>
      let error_result : PyDict :=
        [("summary", J.s ("E-commerce seller analysis successfully generated comprehensive market insights with real product names and seller-focused data for your " ++ category ++ " market research.")),
         ("tables", J.arr [J.arr (generate_enhanced_fallback_data "market gap"
            category platform region time_period)]),
         ("charts", J.arr ((create_fallback_charts o [] "market gap" category
            platform region time_period).map J.s)),
         ("recommendations", J.s (generate_enterprise_recommendations
            "market gap" category)),
         ("status", J.s "✅ Seller-focused analysis complete with real product data - Multiple professional charts generated")]
      let saved := save_results_tool error_result timestamp
      (saved, some saved)

/-- `agent_orchestrator` of `agents.py`, over the file state (the
persisted results file) and the current timestamp.  Returns the envelope
handed to the caller together with the new file state.  The
`load`/`result` shortcut skips the pipeline; otherwise the request is
parsed into the typed parameters and `run_pipeline` runs. -/
def agent_orchestrator (o : Oracles) (file : Option PyDict)
    (timestamp question : String) : PyDict × Option PyDict :=
  let ql := pyLower question
  if containsSub ql "load" && containsSub ql "result" then
    (load_results_tool file, file)
  else
    let analysis_type :=
      if containsSub ql "market gap" then "market gap"
      else if containsSub ql "trending" then "trending products"
      else if containsSub ql "high selling" then "high selling products"
      else if containsSub ql "competitor" then "competitor analysis"
      else "general"
    let category := (reQuoted "for " question).getD "products"
    let platform := (reQuoted "on " question).getD "Amazon"
    let region := (reQuoted "in " question).getD "US"
    let time_period := (reTimePeriod question).getD "Last Month"
    run_pipeline o timestamp analysis_type category platform region
      time_period

/-! ### Basic lemmas about the dict model -/

theorem getKey_setKey_self (d : PyDict) (k : String) (v : J) :
    getKey (setKey d k v) k = some v := by
  induction d with
  | nil => simp [setKey, getKey]
  | cons kv rest ih =>
    obtain ⟨k', v'⟩ := kv
    by_cases h : k' = k
    · simp [setKey, getKey, h]
    · simp [setKey, getKey, h, ih]

theorem getKey_setKey_ne (d : PyDict) (k k' : String) (v : J) (h : k' ≠ k) :
    getKey (setKey d k' v) k = getKey d k := by
  induction d with
  | nil => simp [setKey, getKey, h]
  | cons kv rest ih =>
    obtain ⟨a, b⟩ := kv
    by_cases ha : a = k'
    · subst ha
      simp [setKey, getKey, h]
    · simp [setKey, getKey, ha, ih]

theorem hasKey_setKey_self (d : PyDict) (k : String) (v : J) :
    hasKey (setKey d k v) k = true := by
  simp [hasKey, getKey_setKey_self]

theorem hasKey_setKey_of (d : PyDict) (k k' : String) (v : J)
    (h : hasKey d k = true) : hasKey (setKey d k' v) k = true := by
  by_cases hk : k' = k
  · subst hk; simp [hasKey, getKey_setKey_self]
  · simpa [hasKey, getKey_setKey_ne d k k' v hk] using h

/-! ### Non-emptiness of strings built by appending to a literal -/

theorem append_ne_empty_left (a b : String) (ha : a ≠ "") : a ++ b ≠ "" := by
  intro h
  apply ha
  have hd := congrArg String.data h
  rw [String.data_append] at hd
  rcases List.append_eq_nil.mp hd with ⟨h1, _⟩
  calc a = String.mk a.data := rfl
  _ = String.mk [] := by rw [h1]
  _ = "" := rfl

/-! ### Shape of the Fallback Data Generator's output -/

theorem gen_ne_nil (t c p r w : String) :
    generate_enhanced_fallback_data t c p r w ≠ [] := by
  unfold generate_enhanced_fallback_data
  by_cases h1 : pyLower t = "market gap"
  · simp [h1]
  by_cases h2 : pyLower t = "trending products"
  · simp [h1, h2]
  by_cases h3 : pyLower t = "high selling products"
  · simp [h1, h2, h3]
  by_cases h4 : pyLower t = "competitor analysis"
  · simp [h1, h2, h3, h4]
  · simp [h1, h2, h3, h4]

theorem gen_head_obj (t c p r w : String) :
    ∃ kvs rest, generate_enhanced_fallback_data t c p r w = .obj kvs :: rest ∧
      1 < kvs.length := by
  unfold generate_enhanced_fallback_data
  by_cases h1 : pyLower t = "market gap"
  · simp only [h1, if_pos, if_true]
    exact ⟨_, _, rfl, by simp⟩
  by_cases h2 : pyLower t = "trending products"
  · simp only [h1, h2, if_false, if_true, if_neg, ite_true, ite_false]
    exact ⟨_, _, rfl, by simp⟩
  by_cases h3 : pyLower t = "high selling products"
  · simp only [h1, h2, h3, if_false, if_true, if_neg, ite_true, ite_false]
    exact ⟨_, _, rfl, by simp⟩
  by_cases h4 : pyLower t = "competitor analysis"
  · simp only [h1, h2, h3, h4, if_false, if_true, if_neg, ite_true, ite_false]
    exact ⟨_, _, rfl, by simp⟩
  · simp only [h1, h2, h3, h4, if_false, if_true, if_neg, ite_true, ite_false]
    exact ⟨_, _, rfl, by simp⟩

theorem ne_nil_of_isEmpty_eq_false {α : Type} (l : List α)
    (h : l.isEmpty = false) : l ≠ [] := by
  cases l <;> simp_all

theorem generate_enterprise_recommendations_ne (t c : String) :
    generate_enterprise_recommendations t c ≠ "" := by
  unfold generate_enterprise_recommendations
  by_cases h1 : pyLower t = "market gap"
  · simp only [h1, reduceIte]
    exact append_ne_empty_left _ _ (append_ne_empty_left _ _ (by decide))
  by_cases h2 : pyLower t = "trending products"
  · simp only [h1, h2, reduceIte]
    exact append_ne_empty_left _ _ (append_ne_empty_left _ _
      (append_ne_empty_left _ _ (append_ne_empty_left _ _ (by decide))))
  by_cases h3 : pyLower t = "high selling products"
  · simp only [h1, h2, h3, reduceIte]
    exact append_ne_empty_left _ _ (append_ne_empty_left _ _ (by decide))
  by_cases h4 : pyLower t = "competitor analysis"
  · simp only [h1, h2, h3, h4, String.reduceEq, reduceIte]
    decide
  · simp only [h1, h2, h3, h4, String.reduceEq, reduceIte]
    exact append_ne_empty_left _ _ (append_ne_empty_left _ _ (by decide))

/-! ### Stage specifications: every stage populates its state entry with
a non-empty value and hands control back as the graph prescribes,
whatever the oracles do. -/

theorem searchNodeAttempts_spec (o : Oracles) (s : AgentState) (query : String)
    (l : List Nat) :
    ∃ r, searchNodeAttempts o s query l =
      { s with raw_data := r, next := "extract" } ∧ r ≠ "" := by
  induction l with
  | nil => exact ⟨_, rfl, by decide⟩
  | cons i rest ih =>
    by_cases hc : search_market_data o query ≠ "" ∧
        (search_market_data o query).length > 100
    · exact ⟨_, by simp only [searchNodeAttempts]; rw [if_pos hc], hc.1⟩
    · obtain ⟨r, hr, hne⟩ := ih
      exact ⟨r, by simp only [searchNodeAttempts]; rw [if_neg hc]; exact hr, hne⟩

theorem search_node_spec (o : Oracles) (s : AgentState) :
    ∃ r, search_node o s = { s with raw_data := r, next := "extract" } ∧
      r ≠ "" := by
  unfold search_node
  exact searchNodeAttempts_spec o s _ _

theorem extract_node_spec (o : Oracles) (s : AgentState) :
    ∃ ds, extract_node o s = { s with extracted_data := ds, next := "analyze" } ∧
      ds ≠ [] := by
  simp only [extract_node]
  split
  · exact ⟨_, rfl, gen_ne_nil _ _ _ _ _⟩
  · split
    · exact ⟨_, rfl, gen_ne_nil _ _ _ _ _⟩
    · split
      · exact ⟨_, rfl, gen_ne_nil _ _ _ _ _⟩
      · exact ⟨_, rfl, by simp⟩

theorem generate_analysis_spec (o : Oracles) (data : List J) (t : String) :
    ∃ sm rc, generate_analysis o data t =
      [("summary", sm), ("recommendations", rc)] ∧ sm ≠ "" ∧ rc ≠ "" := by
  unfold generate_analysis
  cases hllm : o.llm with
  | none =>
    exact ⟨_, _, rfl,
      append_ne_empty_left _ _ (append_ne_empty_left _ _ (by decide)),
      generate_enterprise_recommendations_ne _ _⟩
  | some l =>
    refine ⟨_, _, rfl, ?_, ?_⟩
    · by_cases hs : (analysisAttempts l (List.range 3) "" "").1 = ""
      · simp only [hs, ite_true]
        exact append_ne_empty_left _ _ (append_ne_empty_left _ _ (by decide))
      · simp only [hs, ite_false]
        exact hs
    · by_cases hr : (analysisAttempts l (List.range 3) "" "").2 = ""
      · simp only [hr, ite_true]
        exact generate_enterprise_recommendations_ne _ _
      · simp only [hr, ite_false]
        exact hr

theorem analyze_node_spec (o : Oracles) (s : AgentState) :
    ∃ sm rc, analyze_node o s =
      { s with analysis := [("summary", sm), ("recommendations", rc)],
               next := "visualize" } ∧ sm ≠ "" ∧ rc ≠ "" := by
  obtain ⟨sm, rc, hga, hsm, hrc⟩ :=
    generate_analysis_spec o s.extracted_data s.analysis_type
  refine ⟨sm, rc, ?_, hsm, hrc⟩
  simp [analyze_node, hga, lookupStrD, setStr, hsm, hrc]

theorem create_fallback_charts_ne_nil (o : Oracles) (data : List J)
    (t c p r w : String) : create_fallback_charts o data t c p r w ≠ [] := by
  simp only [create_fallback_charts]
  cases hd : (if data.isEmpty then
      generate_enhanced_fallback_data t c p r w else data) with
  | nil => simp
  | cons d0 rest =>
    cases d0 <;> simp only []
    case obj kvs =>
      by_cases hk : kvs.length > 1
      · rw [if_pos hk]
        by_cases hce : (create_analysis_chart o (J.obj kvs :: rest) t c p r w).isEmpty
        · rw [if_pos hce]; simp
        · rw [if_neg hce]
          exact ne_nil_of_isEmpty_eq_false _ (by simpa using hce)
      · rw [if_neg hk]; simp
    all_goals simp

theorem visualize_node_spec (o : Oracles) (s : AgentState) :
    ∃ cs, visualize_node o s =
      { s with chart := .lst cs, next := "supervisor" } ∧ cs ≠ [] := by
  simp only [visualize_node]
  by_cases h : (create_analysis_chart o s.extracted_data s.analysis_type
      s.category s.platform s.region s.time_period).isEmpty
  · exact ⟨_, by rw [if_pos h], create_fallback_charts_ne_nil _ _ _ _ _ _ _⟩
  · exact ⟨_, by rw [if_neg h],
      ne_nil_of_isEmpty_eq_false _ (by simpa using h)⟩

/-! ### The supervisor loop: progress and termination -/

/-- The number of state entries the supervisor still considers missing. -/
def missingCount (s : AgentState) : Nat :=
  (if s.raw_data = "" then 1 else 0) +
  (if s.extracted_data.isEmpty then 1 else 0) +
  (if s.analysis.isEmpty then 1 else 0) +
  (if chartTruthy s.chart then 0 else 1)

theorem missingCount_le_four (s : AgentState) : missingCount s ≤ 4 := by
  have a1 : (if s.raw_data = "" then 1 else 0) ≤ 1 := by split <;> omega
  have a2 : (if s.extracted_data.isEmpty then 1 else 0) ≤ 1 := by split <;> omega
  have a3 : (if s.analysis.isEmpty then 1 else 0) ≤ 1 := by split <;> omega
  have a4 : (if chartTruthy s.chart then 0 else 1) ≤ 1 := by split <;> omega
  unfold missingCount
  omega

theorem missingCount_eq_zero (s : AgentState) (h : missingCount s = 0) :
    s.raw_data ≠ "" ∧ s.extracted_data.isEmpty = false ∧
      s.analysis.isEmpty = false ∧ chartTruthy s.chart = true := by
  unfold missingCount at h
  refine ⟨?_, ?_, ?_, ?_⟩
  · intro hh; rw [if_pos hh] at h; omega
  · by_cases hh : s.extracted_data.isEmpty
    · rw [if_pos hh] at h; omega
    · simpa using hh
  · by_cases hh : s.analysis.isEmpty
    · rw [if_pos hh] at h; omega
    · simpa using hh
  · by_cases hh : chartTruthy s.chart
    · simpa using hh
    · rw [if_neg hh] at h; omega

theorem runNodes_step_search (o : Oracles) (fuel : Nat) (s : AgentState)
    (h : s.raw_data = "") :
    runNodes o (fuel + 2) "supervisor" s =
      runNodes o fuel "supervisor" (search_node o { s with next := "search" }) := by
  simp [runNodes, supervisor_node, runStage, h]

theorem runNodes_step_extract (o : Oracles) (fuel : Nat) (s : AgentState)
    (h1 : s.raw_data ≠ "") (h2 : s.extracted_data.isEmpty = true) :
    runNodes o (fuel + 2) "supervisor" s =
      runNodes o fuel "supervisor" (extract_node o { s with next := "extract" }) := by
  simp [runNodes, supervisor_node, runStage, h1, h2]

theorem runNodes_step_analyze (o : Oracles) (fuel : Nat) (s : AgentState)
    (h1 : s.raw_data ≠ "") (h2 : s.extracted_data.isEmpty = false)
    (h3 : s.analysis.isEmpty = true) :
    runNodes o (fuel + 2) "supervisor" s =
      runNodes o fuel "supervisor" (analyze_node o { s with next := "analyze" }) := by
  simp [runNodes, supervisor_node, runStage, h1, h2, h3]

theorem runNodes_step_visualize (o : Oracles) (fuel : Nat) (s : AgentState)
    (h1 : s.raw_data ≠ "") (h2 : s.extracted_data.isEmpty = false)
    (h3 : s.analysis.isEmpty = false) (h4 : chartTruthy s.chart = false) :
    runNodes o (fuel + 2) "supervisor" s =
      runNodes o fuel "supervisor" (visualize_node o { s with next := "visualize" }) := by
  simp [runNodes, supervisor_node, runStage, h1, h2, h3, h4]

theorem runNodes_step_finish (o : Oracles) (fuel : Nat) (s : AgentState)
    (h1 : s.raw_data ≠ "") (h2 : s.extracted_data.isEmpty = false)
    (h3 : s.analysis.isEmpty = false) (h4 : chartTruthy s.chart = true) :
    runNodes o (fuel + 1) "supervisor" s = some { s with next := "FINISH" } := by
  simp [runNodes, supervisor_node, h1, h2, h3, h4]

theorem runNodes_reaches_finish (o : Oracles) :
    ∀ (n : Nat) (s : AgentState) (fuel : Nat),
      missingCount s ≤ n → 2 * n + 1 ≤ fuel →
      ∃ final, runNodes o fuel "supervisor" s = some final ∧
        final.next = "FINISH" := by
  intro n
  induction n with
  | zero =>
    intro s fuel hm hf
    obtain ⟨h1, h2, h3, h4⟩ := missingCount_eq_zero s (Nat.le_zero.mp hm)
    obtain ⟨f, rfl⟩ : ∃ f, fuel = f + 1 := ⟨fuel - 1, by omega⟩
    exact ⟨_, runNodes_step_finish o f s h1 h2 h3 h4, by simp⟩
  | succ n ih =>
    intro s fuel hm hf
    by_cases h1 : s.raw_data = ""
    · obtain ⟨f, rfl⟩ : ∃ f, fuel = f + 2 := ⟨fuel - 2, by omega⟩
      rw [runNodes_step_search o f s h1]
      obtain ⟨r, hS, hr⟩ := search_node_spec o { s with next := "search" }
      rw [hS]
      apply ih
      · simp only [missingCount] at hm ⊢
        simp [h1, hr] at hm ⊢
        all_goals omega
      · omega
    by_cases h2 : s.extracted_data.isEmpty
    · obtain ⟨f, rfl⟩ : ∃ f, fuel = f + 2 := ⟨fuel - 2, by omega⟩
      rw [runNodes_step_extract o f s h1 h2]
      obtain ⟨ds, hE, hds⟩ := extract_node_spec o { s with next := "extract" }
      rw [hE]
      apply ih
      · have hds' : ds.isEmpty = false := by cases ds <;> simp_all
        simp only [missingCount] at hm ⊢
        simp [h1, h2, hds'] at hm ⊢
        all_goals omega
      · omega
    by_cases h3 : s.analysis.isEmpty
    · obtain ⟨f, rfl⟩ : ∃ f, fuel = f + 2 := ⟨fuel - 2, by omega⟩
      rw [runNodes_step_analyze o f s h1 (by simpa using h2) h3]
      obtain ⟨sm, rc, hA, hsm, hrc⟩ := analyze_node_spec o { s with next := "analyze" }
      rw [hA]
      apply ih
      · simp only [missingCount] at hm ⊢
        simp [h1, h2, h3] at hm ⊢
        all_goals omega
      · omega
    by_cases h4 : chartTruthy s.chart
    · obtain ⟨f, rfl⟩ : ∃ f, fuel = f + 1 := ⟨fuel - 1, by omega⟩
      exact ⟨_, runNodes_step_finish o f s h1 (by simpa using h2)
        (by simpa using h3) (by simpa using h4), by simp⟩
    · obtain ⟨f, rfl⟩ : ∃ f, fuel = f + 2 := ⟨fuel - 2, by omega⟩
      rw [runNodes_step_visualize o f s h1 (by simpa using h2)
        (by simpa using h3) (by simpa using h4)]
      obtain ⟨cs, hV, hcs⟩ := visualize_node_spec o { s with next := "visualize" }
      rw [hV]
      apply ih
      · have hcs' : chartTruthy (.lst cs) = true := by
          cases cs <;> simp_all [chartTruthy]
        simp only [missingCount] at hm ⊢
        simp [h1, h2, h3, h4, hcs'] at hm ⊢
        all_goals omega
      · omega

/-- C5: For every pipeline state (in particular every state reachable
from the empty initial state), the supervisor/stage loop reaches
`FINISH` within the configured iteration ceiling (LangGraph's default
`recursion_limit` of 25, which the source runs under), whatever the
oracles do; the fuel-bounded driver `runNodes` cannot execute more than
the ceiling's number of node steps on any state. -/
theorem supervisor_loop_reaches_finish (o : Oracles) (s : AgentState) :
    ∃ final, runNodes o recursionLimit "supervisor" s = some final ∧
      final.next = "FINISH" :=
  runNodes_reaches_finish o 4 s recursionLimit (missingCount_le_four s)
    (by norm_num [recursionLimit])

set_option maxHeartbeats 1000000 in
/-- Running the workflow from the orchestrator's freshly initialised
state: the driver reaches `FINISH` with every stage output populated
and non-empty, for every oracle behaviour. -/
theorem runNodes_from_initState (o : Oracles) (t c pf rg w : String) :
    ∃ (final : AgentState) (sm rc : String) (cs : List String),
      runNodes o recursionLimit "supervisor" (initState t c pf rg w) =
        some final ∧
      final.extracted_data ≠ [] ∧
      final.analysis = [("summary", sm), ("recommendations", rc)] ∧
      sm ≠ "" ∧ rc ≠ "" ∧
      final.chart = .lst cs ∧ cs ≠ [] := by
  rw [show recursionLimit = 23 + 2 from rfl]
  rw [runNodes_step_search o 23 (initState t c pf rg w) (by simp [initState])]
  obtain ⟨r, hS, hr⟩ :=
    search_node_spec o { initState t c pf rg w with next := "search" }
  rw [hS]
  rw [show (23 : Nat) = 21 + 2 from rfl]
  rw [runNodes_step_extract o 21 _ (by simpa [initState] using hr)
    (by simp [initState])]
  obtain ⟨ds, hE, hds⟩ := extract_node_spec o _
  rw [hE]
  rw [show (21 : Nat) = 19 + 2 from rfl]
  rw [runNodes_step_analyze o 19 _ (by simpa [initState] using hr)
    (by simpa [initState] using hds) (by simp [initState])]
  obtain ⟨sm, rc, hA, hsm, hrc⟩ := analyze_node_spec o _
  rw [hA]
  rw [show (19 : Nat) = 17 + 2 from rfl]
  rw [runNodes_step_visualize o 17 _ (by simpa [initState] using hr)
    (by simpa [initState] using hds) (by simp [initState])
    (by simp [initState, chartTruthy])]
  obtain ⟨cs, hV, hcs⟩ := visualize_node_spec o _
  rw [hV]
  rw [show (17 : Nat) = 16 + 1 from rfl]
  rw [runNodes_step_finish o 16 _ (by simpa [initState] using hr)
    (by simpa [initState] using hds)
    (by simp [initState])
    (by simp [initState, chartTruthy]; simpa using hcs)]
  exact ⟨_, sm, rc, cs, rfl, by simpa [initState] using hds, by simp [initState],
    hsm, hrc, by simp [initState], hcs⟩

/-- The pipeline branch always produces a well-formed envelope: non-empty
summary, exactly one non-empty record table, at least one chart, and
non-empty recommendations — for every oracle behaviour. -/
theorem run_pipeline_wellformed (o : Oracles) (ts t c pf rg w : String) :
    ∃ sm recs cs rc,
      getKey (run_pipeline o ts t c pf rg w).1 "summary" = some (.s sm) ∧
      sm ≠ "" ∧
      getKey (run_pipeline o ts t c pf rg w).1 "tables" =
        some (.arr [.arr recs]) ∧ recs ≠ [] ∧
      getKey (run_pipeline o ts t c pf rg w).1 "charts" = some (.arr cs) ∧
      cs ≠ [] ∧
      getKey (run_pipeline o ts t c pf rg w).1 "recommendations" =
        some (.s rc) ∧ rc ≠ "" := by
  obtain ⟨final, sm, rc, cs, hrun, hds, hana, hsm, hrc, hch, hcs⟩ :=
    runNodes_from_initState o t c pf rg w
  refine ⟨sm, final.extracted_data, cs.map J.s, rc, ?_, hsm, ?_, hds,
    ?_, ?_, ?_, hrc⟩ <;>
    simp [run_pipeline, hrun, save_results_tool, setKey, getKey, lookupStrD,
      hana, hch, hcs]

/-! ### Serialisation, the spec's prescribed record shapes, and concrete
oracle instances used in the scenario theorems -/

mutual
/-- Model of `json.dumps` on a value (default separators). -/
def dumpsJ : J → String
  | .s v => "\"" ++ jsonEscape v ++ "\""
  | .i n => toString n
  | .q x => tenthsStr x
  | .b true => "true"
  | .b false => "false"
  | .null => "null"
  | .arr elems => "[" ++ dumpsElems elems ++ "]"
  | .obj kvs => "\x7b" ++ dumpsKVs kvs ++ "\x7d"

/-- Comma-joined serialisation of the elements of a list. -/
def dumpsElems : List J → String
  | [] => ""
  | [x] => dumpsJ x
  | x :: y :: rest => dumpsJ x ++ ", " ++ dumpsElems (y :: rest)

/-- Comma-joined serialisation of the entries of a dict. -/
def dumpsKVs : List (String × J) → String
  | [] => ""
  | [(k, v)] => "\"" ++ jsonEscape k ++ "\": " ++ dumpsJ v
  | (k, v) :: y :: rest =>
    "\"" ++ jsonEscape k ++ "\": " ++ dumpsJ v ++ ", " ++ dumpsKVs (y :: rest)
end

/-- The field set the specification (§3) prescribes for the records of
each analysis kind (spec-side definition, for comparison with what the
code produces). -/
def prescribedFields (kindLower : String) : List String :=
  if kindLower = "market gap" then
    ["product", "demand_score", "competition", "opportunity", "market_size"]
  else if kindLower = "trending products" then
    ["product", "trend_score", "growth", "interest_level", "search_volume"]
  else if kindLower = "high selling products" then
    ["product", "sales_rank", "revenue", "rating", "reviews"]
  else if kindLower = "competitor analysis" then
    ["competitor", "market_share", "strength", "weakness", "rating"]
  else []

theorem gen_fields_of_supported (t c p r w : String)
    (ht : isSupportedKind t = true) :
    ∀ rec ∈ generate_enhanced_fallback_data t c p r w,
      fieldNamesOf rec = prescribedFields (pyLower t) := by
  unfold isSupportedKind at ht
  simp only [Bool.or_eq_true, decide_eq_true_eq] at ht
  unfold generate_enhanced_fallback_data
  rcases ht with ((h | h) | h) | h <;>
  · simp only [h, String.reduceEq, reduceIte]
    intro rec hrec
    simp only [List.mem_cons, List.not_mem_nil, or_false] at hrec
    rcases hrec with rfl | rfl | rfl | rfl | rfl <;>
      simp [fieldNamesOf, prescribedFields, h]

/-- Oracle instance on which every external call fails: Tavily and the
LLM clients are `None`, the chart builders raise. -/
def oracleFailAll : Oracles :=
  { tavily := none, llm := none, render := fun _ => .err }

/-- An LLM whose extraction chain returns a record with fields outside
every prescribed schema (and whose other chains raise). -/
def llmWrongShape : LLMOracle :=
  { extractChain := fun _ => .ok (.arr [.obj [("a", .s "1"), ("b", .s "2")]]),
    summaryChain := fun _ => .err, recChain := fun _ => .err }

/-- Oracles with the wrong-shape LLM installed. -/
def oracleWrongShape : Oracles :=
  { tavily := none, llm := some llmWrongShape, render := fun _ => .err }

/-- An LLM whose extraction chain returns `[\x7b\x7d]`, the single empty
object. -/
def llmEmptyObj : LLMOracle :=
  { extractChain := fun _ => .ok (.arr [.obj []]),
    summaryChain := fun _ => .err, recChain := fun _ => .err }

/-- Oracles with the empty-object LLM installed. -/
def oracleEmptyObj : Oracles :=
  { tavily := none, llm := some llmEmptyObj, render := fun _ => .err }

/-- A search oracle that always returns the (truthy) 5-character body
`abcde`, whose `json.dumps` serialisation is the 7-character quoted
string. -/
def tavilySmall : Nat → SearchResult := fun _ => .ok true "\"abcde\""

/-- Oracles with the small-body search oracle installed. -/
def oracleSmallSearch : Oracles :=
  { tavily := some tavilySmall, llm := none, render := fun _ => .err }

/-- A pipeline state in the middle of a run, about to extract for a
market-gap request. -/
def sampleState : AgentState :=
  { next := "extract", raw_data := "raw", extracted_data := [],
    analysis := [], chart := .str "", analysis_type := "market gap",
    category := "electronics", platform := "Amazon", region := "US",
    time_period := "Last Month", max_retries := 0 }

/-! ### Claim theorems -/

/-- C1 (amended): for every request string that does not contain both
"load" and "result" as case-insensitive substrings — hence for each of
the four analysis kinds — `agent_orchestrator` returns (the embedding is
total, so no exception escapes) a ResultEnvelope whose `summary` is a
non-empty string, whose `tables` contains exactly one record sequence of
length at least 1, whose `charts` contains at least one entry, and whose
`recommendations` is a non-empty string, for every oracle behaviour — in
particular when the search oracle and the LLM oracle fail (raise or are
unavailable) on every call. -/
theorem orchestrator_envelope_wellformed (o : Oracles) (file : Option PyDict)
    (ts q : String)
    (hq : (containsSub (pyLower q) "load" && containsSub (pyLower q) "result") = false) :
    ∃ sm recs cs rc,
      getKey (agent_orchestrator o file ts q).1 "summary" = some (.s sm) ∧
      sm ≠ "" ∧
      getKey (agent_orchestrator o file ts q).1 "tables" =
        some (.arr [.arr recs]) ∧ recs ≠ [] ∧
      getKey (agent_orchestrator o file ts q).1 "charts" = some (.arr cs) ∧
      cs ≠ [] ∧
      getKey (agent_orchestrator o file ts q).1 "recommendations" =
        some (.s rc) ∧ rc ≠ "" := by
  simp only [agent_orchestrator, hq, Bool.false_eq_true, if_false]
  exact run_pipeline_wellformed o ts _ _ _ _ _

/-- Witness for C1's amended theorem at a concrete nonsensical request
with both oracles unavailable. -/
theorem orchestrator_envelope_wellformed_witness :
    ((containsSub (pyLower "gibberish nonsense request") "load" &&
      containsSub (pyLower "gibberish nonsense request") "result") = false) ∧
    (∃ sm recs cs rc,
      getKey (agent_orchestrator oracleFailAll none "2024-01-01T00:00:00"
        "gibberish nonsense request").1 "summary" = some (.s sm) ∧ sm ≠ "" ∧
      getKey (agent_orchestrator oracleFailAll none "2024-01-01T00:00:00"
        "gibberish nonsense request").1 "tables" =
          some (.arr [.arr recs]) ∧ recs ≠ [] ∧
      getKey (agent_orchestrator oracleFailAll none "2024-01-01T00:00:00"
        "gibberish nonsense request").1 "charts" = some (.arr cs) ∧ cs ≠ [] ∧
      getKey (agent_orchestrator oracleFailAll none "2024-01-01T00:00:00"
        "gibberish nonsense request").1 "recommendations" =
          some (.s rc) ∧ rc ≠ "") :=
  ⟨by decide, orchestrator_envelope_wellformed oracleFailAll none
    "2024-01-01T00:00:00" "gibberish nonsense request" (by decide)⟩

/-- C1 counterexample: on the request `load my results` (which contains
both "load" and "result") with no persisted file, the orchestrator
short-circuits to the load path and returns an envelope whose `tables`
and `charts` are empty — so the claim as stated (for *every* request
string) is false. -/
theorem orchestrator_envelope_load_counterexample :
    getKey (agent_orchestrator oracleFailAll none "2024-01-01T00:00:00"
      "load my results").1 "tables" = some (.arr []) ∧
    getKey (agent_orchestrator oracleFailAll none "2024-01-01T00:00:00"
      "load my results").1 "charts" = some (.arr []) :=
  ⟨rfl, rfl⟩

/-- C2: the Fallback Data Generator is deterministic — two calls with
identical `(analysis_kind, category, platform, region, time_window)`
arguments return identical record sequences, byte-identical when
serialised; the embedded function takes no other input (no oracle, file,
or run state), so the output depends on nothing else. -/
theorem fallback_generator_deterministic
    (t₁ c₁ p₁ r₁ w₁ t₂ c₂ p₂ r₂ w₂ : String)
    (ht : t₁ = t₂) (hc : c₁ = c₂) (hp : p₁ = p₂) (hr : r₁ = r₂)
    (hw : w₁ = w₂) :
    generate_enhanced_fallback_data t₁ c₁ p₁ r₁ w₁ =
      generate_enhanced_fallback_data t₂ c₂ p₂ r₂ w₂ ∧
    dumpsElems (generate_enhanced_fallback_data t₁ c₁ p₁ r₁ w₁) =
      dumpsElems (generate_enhanced_fallback_data t₂ c₂ p₂ r₂ w₂) := by
  subst ht hc hp hr hw
  exact ⟨rfl, rfl⟩

/-- Witness for C2 at one concrete argument tuple. -/
theorem fallback_generator_deterministic_witness :
    generate_enhanced_fallback_data "market gap" "electronics" "Amazon" "US"
        "Last Month" =
      generate_enhanced_fallback_data "market gap" "electronics" "Amazon" "US"
        "Last Month" ∧
    dumpsElems (generate_enhanced_fallback_data "market gap" "electronics"
        "Amazon" "US" "Last Month") =
      dumpsElems (generate_enhanced_fallback_data "market gap" "electronics"
        "Amazon" "US" "Last Month") :=
  fallback_generator_deterministic "market gap" "electronics" "Amazon" "US"
    "Last Month" "market gap" "electronics" "Amazon" "US" "Last Month"
    rfl rfl rfl rfl rfl

/-- C9: on the request `load my results` (containing "load" and "result")
with no persisted file, the orchestrator short-circuits to
`load_results_tool` without running the pipeline or saving, and the
envelope's summary is the no-results sentinel text with empty `tables`
and `charts`. -/
theorem load_request_no_results (o : Oracles) (ts : String) :
    agent_orchestrator o none ts "load my results" =
      (load_results_tool none, none) ∧
    getKey (agent_orchestrator o none ts "load my results").1 "summary" =
      some (.s "No saved results found. Run an analysis first.") ∧
    getKey (agent_orchestrator o none ts "load my results").1 "tables" =
      some (.arr []) ∧
    getKey (agent_orchestrator o none ts "load my results").1 "charts" =
      some (.arr []) :=
  ⟨rfl, rfl, rfl, rfl⟩

/-- C3 (amended): every record the Fallback Data Generator produces for
one of the four supported analysis kinds has exactly the field set the
specification prescribes for that kind, and hence all records in one
generated sequence share the same shape.  (The Extraction path's
validation only checks that the result is a non-empty list whose first
element has more than one field, so it does not enforce this shape on
oracle-returned records — see the counterexample.) -/
theorem fallback_records_have_prescribed_fields (t c p r w : String)
    (ht : isSupportedKind t = true) :
    (∀ rec ∈ generate_enhanced_fallback_data t c p r w,
      fieldNamesOf rec = prescribedFields (pyLower t)) ∧
    ∀ r1 ∈ generate_enhanced_fallback_data t c p r w,
      ∀ r2 ∈ generate_enhanced_fallback_data t c p r w,
        fieldNamesOf r1 = fieldNamesOf r2 := by
  have h := gen_fields_of_supported t c p r w ht
  exact ⟨h, fun r1 h1 r2 h2 => (h r1 h1).trans (h r2 h2).symm⟩

/-- Witness for C3's amended theorem at the market-gap kind. -/
theorem fallback_records_have_prescribed_fields_witness :
    isSupportedKind "market gap" = true ∧
    ((∀ rec ∈ generate_enhanced_fallback_data "market gap" "electronics"
        "Amazon" "US" "Last Month",
      fieldNamesOf rec = prescribedFields (pyLower "market gap")) ∧
    ∀ r1 ∈ generate_enhanced_fallback_data "market gap" "electronics"
        "Amazon" "US" "Last Month",
      ∀ r2 ∈ generate_enhanced_fallback_data "market gap" "electronics"
          "Amazon" "US" "Last Month",
        fieldNamesOf r1 = fieldNamesOf r2) :=
  ⟨by decide, fallback_records_have_prescribed_fields "market gap"
    "electronics" "Amazon" "US" "Last Month" (by decide)⟩

/-- C3 counterexample: when the Extraction Oracle returns a single record
with fields `a`, `b`, the Extract stage's validation accepts it (it is a
non-empty list whose first element has two fields), so the pipeline's
records do not carry the prescribed MarketGap field set — the claim is
false for the extraction path. -/
theorem extraction_path_field_set_counterexample :
    (extract_node oracleWrongShape sampleState).extracted_data.map
        fieldNamesOf = [["a", "b"]] ∧
    ["a", "b"] ≠ prescribedFields "market gap" :=
  ⟨rfl, by decide⟩

/-- C6 (amended): the MarketGap substitution for an unsupported
`analysis_kind` happens only on the path where the LLM oracle is
available: there `process_market_data` replaces the kind by
`"market gap"` before invoking the Fallback Data Generator, so the
records have the MarketGap shape.  When the LLM oracle is unavailable
the original kind is passed through unchanged (see the counterexample
for the resulting shape). -/
theorem unsupported_kind_substitution_with_llm (o : Oracles) (l : LLMOracle)
    (hl : o.llm = some l) (raw t c p r w : String)
    (ht : isSupportedKind t = false) :
    process_market_data o raw t c p r w =
      generate_enhanced_fallback_data "market gap" c p r w ∧
    ∀ rec ∈ process_market_data o raw t c p r w,
      fieldNamesOf rec = prescribedFields "market gap" := by
  have heq : process_market_data o raw t c p r w =
      generate_enhanced_fallback_data "market gap" c p r w := by
    simp [process_market_data, hl, ht]
  refine ⟨heq, ?_⟩
  rw [heq]
  have h := gen_fields_of_supported "market gap" c p r w (by decide)
  rw [show pyLower "market gap" = "market gap" from rfl] at h
  exact h

/-- Witness for C6's amended theorem at the default kind `"general"`. -/
theorem unsupported_kind_substitution_with_llm_witness :
    oracleWrongShape.llm = some llmWrongShape ∧
    isSupportedKind "general" = false ∧
    (process_market_data oracleWrongShape "raw" "general" "products" "Amazon"
        "US" "Last Month" =
      generate_enhanced_fallback_data "market gap" "products" "Amazon" "US"
        "Last Month" ∧
    ∀ rec ∈ process_market_data oracleWrongShape "raw" "general" "products"
        "Amazon" "US" "Last Month",
      fieldNamesOf rec = prescribedFields "market gap") :=
  ⟨rfl, by decide, unsupported_kind_substitution_with_llm oracleWrongShape
    llmWrongShape rfl "raw" "general" "products" "Amazon" "US" "Last Month"
    (by decide)⟩

/-- C6 counterexample: with the LLM oracle unavailable (`llm = None`),
`process_market_data` passes the unsupported kind `"general"` straight
to the Fallback Data Generator, whose records have the generic
`item`/`value`/`status` shape, not the MarketGap shape — so the claim's
"on every fallback path, including when the LLM oracle is unavailable"
is false. -/
theorem unsupported_kind_no_substitution_counterexample :
    (process_market_data oracleFailAll "raw" "general" "products" "Amazon"
        "US" "Last Month").map fieldNamesOf = [["item", "value", "status"]] ∧
    ["item", "value", "status"] ≠ prescribedFields "market gap" :=
  ⟨rfl, by decide⟩

/-- `load_results_tool` returns the stored dict unchanged when all four
required keys are present. -/
theorem load_results_tool_of_required (d : PyDict)
    (h1 : hasKey d "summary" = true) (h2 : hasKey d "tables" = true)
    (h3 : hasKey d "charts" = true) (h4 : hasKey d "recommendations" = true) :
    load_results_tool (some d) = d := by
  simp only [load_results_tool, requiredKeys, List.foldl]
  rw [if_pos h1, if_pos h2, if_pos h3, if_pos h4]

theorem save_results_tool_timestamp (d : PyDict) (ts : String) :
    getKey (save_results_tool d ts) "timestamp" = some (.s ts) := by
  unfold save_results_tool
  rw [getKey_setKey_ne _ _ _ _ (by decide)]
  exact getKey_setKey_self _ _ _

theorem save_results_tool_version (d : PyDict) (ts : String) :
    getKey (save_results_tool d ts) "version" = some (.s "1.0") := by
  unfold save_results_tool
  exact getKey_setKey_self _ _ _

theorem save_results_tool_frame (d : PyDict) (ts : String) (k : String)
    (hk1 : k ≠ "timestamp") (hk2 : k ≠ "version") :
    getKey (save_results_tool d ts) k = getKey d k := by
  unfold save_results_tool
  rw [getKey_setKey_ne _ _ _ _ (Ne.symm hk2), getKey_setKey_ne _ _ _ _ (Ne.symm hk1)]

/-- C4: saving an envelope (one with the four required
summary/tables/charts/recommendations keys) and then loading returns an
envelope equal to the saved one: the stored dict itself, which differs
from the input envelope only in the refreshed `timestamp` and the fixed
`version` tag `"1.0"` added at save time, every other key unchanged. -/
theorem save_then_load_roundtrip (env : PyDict) (ts : String)
    (h1 : hasKey env "summary" = true) (h2 : hasKey env "tables" = true)
    (h3 : hasKey env "charts" = true)
    (h4 : hasKey env "recommendations" = true) :
    load_results_tool (some (save_results_tool env ts)) =
      save_results_tool env ts ∧
    getKey (load_results_tool (some (save_results_tool env ts)))
      "timestamp" = some (.s ts) ∧
    getKey (load_results_tool (some (save_results_tool env ts)))
      "version" = some (.s "1.0") ∧
    ∀ k, k ≠ "timestamp" → k ≠ "version" →
      getKey (load_results_tool (some (save_results_tool env ts))) k =
        getKey env k := by
  have hp : ∀ k, hasKey env k = true →
      hasKey (save_results_tool env ts) k = true := by
    intro k hk
    unfold save_results_tool
    exact hasKey_setKey_of _ _ _ _ (hasKey_setKey_of _ _ _ _ hk)
  have hld : load_results_tool (some (save_results_tool env ts)) =
      save_results_tool env ts :=
    load_results_tool_of_required _ (hp _ h1) (hp _ h2) (hp _ h3) (hp _ h4)
  refine ⟨hld, ?_, ?_, ?_⟩
  · rw [hld]; exact save_results_tool_timestamp env ts
  · rw [hld]; exact save_results_tool_version env ts
  · intro k hk1 hk2
    rw [hld]; exact save_results_tool_frame env ts k hk1 hk2

/-- Witness for C4 at a concrete envelope. -/
theorem save_then_load_roundtrip_witness :
    hasKey [("summary", J.s "s"), ("tables", J.arr []), ("charts", J.arr []),
      ("recommendations", J.s "r"), ("status", J.s "ok")] "summary" = true ∧
    (load_results_tool (some (save_results_tool
        [("summary", J.s "s"), ("tables", J.arr []), ("charts", J.arr []),
         ("recommendations", J.s "r"), ("status", J.s "ok")] "T")) =
      save_results_tool
        [("summary", J.s "s"), ("tables", J.arr []), ("charts", J.arr []),
         ("recommendations", J.s "r"), ("status", J.s "ok")] "T" ∧
    getKey (load_results_tool (some (save_results_tool
        [("summary", J.s "s"), ("tables", J.arr []), ("charts", J.arr []),
         ("recommendations", J.s "r"), ("status", J.s "ok")] "T")))
      "timestamp" = some (.s "T") ∧
    getKey (load_results_tool (some (save_results_tool
        [("summary", J.s "s"), ("tables", J.arr []), ("charts", J.arr []),
         ("recommendations", J.s "r"), ("status", J.s "ok")] "T")))
      "version" = some (.s "1.0") ∧
    ∀ k, k ≠ "timestamp" → k ≠ "version" →
      getKey (load_results_tool (some (save_results_tool
          [("summary", J.s "s"), ("tables", J.arr []), ("charts", J.arr []),
           ("recommendations", J.s "r"), ("status", J.s "ok")] "T"))) k =
        getKey [("summary", J.s "s"), ("tables", J.arr []),
          ("charts", J.arr []), ("recommendations", J.s "r"),
          ("status", J.s "ok")] k) :=
  ⟨rfl, save_then_load_roundtrip
    [("summary", J.s "s"), ("tables", J.arr []), ("charts", J.arr []),
     ("recommendations", J.s "r"), ("status", J.s "ok")] "T"
    rfl rfl rfl rfl⟩

/-- The pipeline branch always returns a saved envelope (both on the
normal path and on the `GraphRecursionError` recovery path). -/
theorem run_pipeline_saved (o : Oracles) (ts t c pf rg w : String) :
    ∃ d, run_pipeline o ts t c pf rg w =
      (save_results_tool d ts, some (save_results_tool d ts)) := by
  unfold run_pipeline
  cases runNodes o recursionLimit "supervisor" (initState t c pf rg w) with
  | some final => exact ⟨_, rfl⟩
  | none => exact ⟨_, rfl⟩

/-- The envelope the pipeline branch returns already carries the
timestamp and version fields `save_results_tool` added in place. -/
theorem run_pipeline_stamped (o : Oracles) (ts t c pf rg w : String) :
    getKey (run_pipeline o ts t c pf rg w).1 "timestamp" = some (.s ts) ∧
    getKey (run_pipeline o ts t c pf rg w).1 "version" = some (.s "1.0") := by
  obtain ⟨d, hd⟩ := run_pipeline_saved o ts t c pf rg w
  rw [hd]
  exact ⟨save_results_tool_timestamp d ts, save_results_tool_version d ts⟩

/-- C10: `save_results_tool` mutates the envelope dict in place, adding
(or overwriting) exactly the keys `timestamp` (the current time) and
`version` (`"1.0"`) and changing no other key; consequently the envelope
`agent_orchestrator` returns to its caller after a pipeline run (any
request without the load shortcut) already contains both fields, though
the orchestrator never assigns them itself. -/
theorem save_mutates_envelope_in_place :
    (∀ (d : PyDict) (ts : String),
      getKey (save_results_tool d ts) "timestamp" = some (.s ts) ∧
      getKey (save_results_tool d ts) "version" = some (.s "1.0") ∧
      ∀ k, k ≠ "timestamp" → k ≠ "version" →
        getKey (save_results_tool d ts) k = getKey d k) ∧
    ∀ (o : Oracles) (file : Option PyDict) (ts q : String),
      (containsSub (pyLower q) "load" && containsSub (pyLower q) "result") = false →
      getKey (agent_orchestrator o file ts q).1 "timestamp" = some (.s ts) ∧
      getKey (agent_orchestrator o file ts q).1 "version" = some (.s "1.0") := by
  constructor
  · intro d ts
    exact ⟨save_results_tool_timestamp d ts, save_results_tool_version d ts,
      fun k hk1 hk2 => save_results_tool_frame d ts k hk1 hk2⟩
  · intro o file ts q hq
    simp only [agent_orchestrator, hq, Bool.false_eq_true, if_false]
    exact run_pipeline_stamped o ts _ _ _ _ _

/-- Witness for C10 at a concrete envelope and a concrete pipeline
request. -/
theorem save_mutates_envelope_in_place_witness :
    (getKey (save_results_tool [("x", J.s "y")] "T") "timestamp" =
        some (.s "T") ∧
      getKey (save_results_tool [("x", J.s "y")] "T") "version" =
        some (.s "1.0") ∧
      getKey (save_results_tool [("x", J.s "y")] "T") "x" =
        getKey [("x", J.s "y")] "x") ∧
    ((containsSub (pyLower "run the analysis") "load" &&
        containsSub (pyLower "run the analysis") "result") = false ∧
      getKey (agent_orchestrator oracleFailAll none "T"
        "run the analysis").1 "timestamp" = some (.s "T") ∧
      getKey (agent_orchestrator oracleFailAll none "T"
        "run the analysis").1 "version" = some (.s "1.0")) :=
  ⟨⟨(save_mutates_envelope_in_place.1 [("x", J.s "y")] "T").1,
    (save_mutates_envelope_in_place.1 [("x", J.s "y")] "T").2.1,
    (save_mutates_envelope_in_place.1 [("x", J.s "y")] "T").2.2 "x"
      (by decide) (by decide)⟩,
   ⟨by decide,
    (save_mutates_envelope_in_place.2 oracleFailAll none "T"
      "run the analysis" (by decide)).1,
    (save_mutates_envelope_in_place.2 oracleFailAll none "T"
      "run the analysis" (by decide)).2⟩⟩

/-- C7: when the Extraction Oracle returns `[\x7b\x7d]` (a single empty
object), the Extract stage's validation (non-empty list whose first
element has more than one field) rejects it and invokes the Fallback
Data Generator for the current `analysis_kind` and request parameters:
the empty-object list is never passed downstream and `records` is never
left empty. -/
theorem empty_object_extraction_falls_back (o : Oracles) (l : LLMOracle)
    (hl : o.llm = some l)
    (hext : ∀ i, l.extractChain i = .ok (.arr [.obj []]))
    (s : AgentState) (ht : isSupportedKind s.analysis_type = true) :
    extract_node o s =
      { s with
        extracted_data := generate_enhanced_fallback_data s.analysis_type
          s.category s.platform s.region s.time_period,
        next := "analyze" } ∧
    (extract_node o s).extracted_data ≠ [] ∧
    (extract_node o s).extracted_data ≠ [.obj []] := by
  have hpm : process_market_data o s.raw_data s.analysis_type s.category
      s.platform s.region s.time_period = [.obj []] := by
    simp only [process_market_data, hl]
    rw [if_pos ht]
    rw [show List.range 3 = [0, 1, 2] from rfl]
    simp [extractAttempts, hext]
  have heq : extract_node o s =
      { s with
        extracted_data := generate_enhanced_fallback_data s.analysis_type
          s.category s.platform s.region s.time_period,
        next := "analyze" } := by
    simp [extract_node, hpm, jLen]
  refine ⟨heq, ?_, ?_⟩
  · rw [heq]
    show generate_enhanced_fallback_data s.analysis_type s.category
      s.platform s.region s.time_period ≠ []
    exact gen_ne_nil _ _ _ _ _
  · rw [heq]
    show generate_enhanced_fallback_data s.analysis_type s.category
      s.platform s.region s.time_period ≠ [.obj []]
    obtain ⟨kvs, rest, hgen, hlen⟩ := gen_head_obj s.analysis_type
      s.category s.platform s.region s.time_period
    intro hcontra
    rw [hgen] at hcontra
    have h1 : J.obj kvs = J.obj [] := (List.cons.inj hcontra).1
    have h2 : kvs = [] := by injection h1
    rw [h2] at hlen
    simp at hlen

/-- Witness for C7 at a concrete market-gap pipeline state. -/
theorem empty_object_extraction_falls_back_witness :
    oracleEmptyObj.llm = some llmEmptyObj ∧
    (∀ i, llmEmptyObj.extractChain i = .ok (.arr [.obj []])) ∧
    isSupportedKind sampleState.analysis_type = true ∧
    (extract_node oracleEmptyObj sampleState =
      { sampleState with
        extracted_data := generate_enhanced_fallback_data
          sampleState.analysis_type sampleState.category sampleState.platform
          sampleState.region sampleState.time_period,
        next := "analyze" } ∧
      (extract_node oracleEmptyObj sampleState).extracted_data ≠ [] ∧
      (extract_node oracleEmptyObj sampleState).extracted_data ≠ [.obj []]) :=
  ⟨rfl, fun _ => rfl, by decide,
   empty_object_extraction_falls_back oracleEmptyObj llmEmptyObj rfl
     (fun _ => rfl) sampleState (by decide)⟩

/-- With every search response too small, each of the 5 node-level
attempts rejects it and the loop ends at the insufficient-data
sentinel. -/
theorem searchNodeAttempts_all_small (o : Oracles) (st : AgentState)
    (q : String)
    (hc : ¬(search_market_data o q ≠ "" ∧
      (search_market_data o q).length > 100)) :
    ∀ l, searchNodeAttempts o st q l =
      { st with raw_data := searchFallbackSentinel, next := "extract" } := by
  intro l
  induction l with
  | nil => rfl
  | cons i rest ih =>
    simp only [searchNodeAttempts]
    rw [if_neg hc]
    exact ih

/-- C8: when every search-oracle response body is at most the minimum
size threshold (its serialised body has at most 100 characters, e.g. a
5-character body), the Search stage treats the response as insufficient,
never aborts, still advances to Extract, and sets `raw_data` to the
explicit insufficient-data sentinel rather than the too-small body. -/
theorem small_search_body_sentinel (o : Oracles) (tav : Nat → SearchResult)
    (htav : o.tavily = some tav)
    (hsmall : ∀ i, ∃ body, tav i = .ok true body ∧ body.length ≤ 100)
    (s : AgentState) :
    search_node o s =
      { s with raw_data := searchFallbackSentinel, next := "extract" } ∧
    searchFallbackSentinel ≠ "" := by
  obtain ⟨b, hb, hble⟩ := hsmall 0
  have hsm : ∀ q, search_market_data o q = b := by
    intro q
    simp only [search_market_data, htav]
    rw [show List.range 10 = [0, 1, 2, 3, 4, 5, 6, 7, 8, 9] from rfl]
    simp [tavilyAttempts, hb]
  have hcond : ∀ q, ¬(search_market_data o q ≠ "" ∧
      (search_market_data o q).length > 100) := by
    rintro q ⟨-, hgt⟩
    rw [hsm q] at hgt
    omega
  constructor
  · unfold search_node
    exact searchNodeAttempts_all_small o s _ (hcond _) _
  · decide

/-- Witness for C8 with the oracle returning the dumped 5-character body
on every call. -/
theorem small_search_body_sentinel_witness :
    oracleSmallSearch.tavily = some tavilySmall ∧
    (∀ i, ∃ body, tavilySmall i = .ok true body ∧ body.length ≤ 100) ∧
    (search_node oracleSmallSearch sampleState =
      { sampleState with
        raw_data := searchFallbackSentinel,
        next := "extract" } ∧
      searchFallbackSentinel ≠ "") :=
  ⟨rfl, fun _ => ⟨"\"abcde\"", rfl, by decide⟩,
   small_search_body_sentinel oracleSmallSearch tavilySmall rfl
     (fun _ => ⟨"\"abcde\"", rfl, by decide⟩) sampleState⟩
